import Mathlib

/-!
# Verification of the webdriverio selenium-standalone launcher and service resolver

Shallow embedding of two TypeScript source files:

* `src/packages/wdio-selenium-standalone-service/src/launcher.ts` — the
  `SeleniumStandaloneLauncher` class (namespace `Launcher` below);
* `src/unnamed/part_000` — the `initialiseServices` /
  `initialiseLauncherService` / `initialiseWorkerService` utilities
  (namespace `Resolver` below).

Side effects (logging, `kill`, stream piping, event registration) are made
explicit as `Effect` traces; thrown JavaScript exceptions are modelled with
`Option`/`Except`.
-/

set_option autoImplicit false

namespace Launcher

/-- Observable side effects of the launcher code. `installCall`/`startCall`
would be emitted by actually invoking the selenium-standalone `install`/
`start` operations; `hostProcessOn` would be emitted by registering a handler
on the host Node.js `process` global (as opposed to `childOn`, registration on
the value stored in the instance field `this.process`). -/
inductive Effect where
  | installCall
  | startCall
  | logInfo (msg : String)
  | killSignal
  | ensureFile (path : String)
  | createWriteStream (path : String)
  | pipeStdout
  | pipeStderr
  | childOn (event : String)
  | hostProcessOn (event : String)
  deriving DecidableEq, Repr

/-- A JavaScript exception. The only ones this code can raise are
`TypeError`s from invoking a missing method. -/
inductive JsError where
  | typeError (method : String)
  deriving DecidableEq, Repr

/-- Values that can end up in the instance field `this.process`.

* `boundFn f this` is the result of `f.bind(thisArg)`: a new function with
  `this` bound; `bind` does not invoke `f`.
* `promisifiedFn v` is the result of `util.promisify(v)`: again a plain
  function, producing a promise only once it is *called*.
* `promiseOf effs r` is a pending promise that, once awaited, performs
  `effs` and yields `r`. The launcher code never constructs one (it never
  calls the promisified functions), but the model distinguishes promises
  from plain functions so that `awaitValue` is not degenerate.
* `procHandle hasStdout hasStderr` is an actual started child-process
  handle, with optional `stdout`/`stderr` streams, a `kill` method and an
  `on` method (`ChildProcess` extends `EventEmitter`). -/
inductive ProcVal where
  | boundFn (fnName : String) (thisArg : Option String)
  | promisifiedFn (inner : ProcVal)
  | promiseOf (effects : List Effect) (result : ProcVal)
  | procHandle (hasStdout hasStderr : Bool)
  deriving DecidableEq, Repr

/-- `util.promisify(f)` returns a new (not yet called) function. -/
def promisify (v : ProcVal) : ProcVal := ProcVal.promisifiedFn v

/-- `f.bind(thisArg)` returns a new function with `this` bound, without
calling `f`. -/
def jsBind (fnName : String) (thisArg : Option String) : ProcVal :=
  ProcVal.boundFn fnName thisArg

/-- JavaScript `await v`: awaiting a promise performs its effects and yields
its result; awaiting any non-thenable value (in particular a function, such
as the result of `promisify`) resolves immediately to the value itself with
no effects. -/
def awaitValue : ProcVal → ProcVal × List Effect
  | ProcVal.promiseOf effs r => (r, effs)
  | v => (v, [])

/-- Method call `v.on(event, handler)`: a child-process handle is an
`EventEmitter` and registers the handler; on any other value (a plain
function, a promise) the property `on` is `undefined` and the call raises
`TypeError`. -/
def callOnMethod (v : ProcVal) (event : String) : List Effect × Option JsError :=
  match v with
  | ProcVal.procHandle _ _ => ([Effect.childOn event], none)
  | _ => ([], some (JsError.typeError "on"))

/-- Method call `v.kill()`: defined on a child-process handle, a `TypeError`
on any other value. -/
def callKillMethod (v : ProcVal) : List Effect × Option JsError :=
  match v with
  | ProcVal.procHandle _ _ => ([Effect.killSignal], none)
  | _ => ([], some (JsError.typeError "kill"))

/-- A capability value: capability descriptors map string keys to strings or
numbers. -/
inductive CapValue where
  | str (s : String)
  | num (n : Int)
  deriving DecidableEq, Repr

/-- A capability descriptor: a JavaScript object, i.e. an insertion-ordered
map from (unique) string keys to values. -/
abbrev Capability := List (String × CapValue)

/-- The `capabilities` constructor argument: either an array of capability
descriptors or a keyed (multiremote) object whose values are descriptors. -/
inductive Capabilities where
  | list (caps : List Capability)
  | keyed (m : List (String × Capability))
  deriving DecidableEq, Repr

/-- JavaScript property write `target[key] = v` on an object with unique
keys: update the existing entry in place, or append a new one. -/
def capSet : Capability → String → CapValue → Capability
  | [], key, v => [(key, v)]
  | (k, w) :: rest, key, v =>
    if k = key then (key, v) :: rest else (k, w) :: capSet rest key v

/-- JavaScript property read `m[key]`. -/
def capGet : Capability → String → Option CapValue
  | [], _ => none
  | (k, v) :: rest, key => if k = key then some v else capGet rest key

/-- `Object.assign(target, src)`: copy every own property of `src` onto
`target`, in key order. -/
def objAssign (target src : Capability) : Capability :=
  src.foldl (fun t p => capSet t p.1 p.2) target

/-- `DEFAULT_CONNECTION` from launcher.ts lines 13–18. -/
def DEFAULT_CONNECTION : Capability :=
  [("protocol", CapValue.str "http"),
   ("hostname", CapValue.str "localhost"),
   ("port", CapValue.num 4444),
   ("path", CapValue.str "/wd/hub")]

/-- Line 66: `Object.assign(cap, DEFAULT_CONNECTION, { ...cap })` — the
argument `{ ...cap }` is a shallow copy of the original `cap`, taken before
`Object.assign` runs, so defaults are written first and then overwritten by
every key the descriptor already had. -/
def mergeCapability (cap : Capability) : Capability :=
  objAssign (objAssign cap DEFAULT_CONNECTION) cap

/-- Lines 62–66: iterate over the capabilities (the array itself, or
`Object.values` of the keyed form) and merge the connection defaults into
each descriptor in place. -/
def prepareCapabilities : Capabilities → Capabilities
  | Capabilities.list caps => Capabilities.list (caps.map mergeCapability)
  | Capabilities.keyed m => Capabilities.keyed (m.map fun p => (p.1, mergeCapability p.2))

/-- The `options` constructor argument (`SeleniumStandaloneOptions`).
`installArgs`/`args` are opaque option-object tokens (`none` = absent). -/
structure SSOptions where
  logPath : Option String := none
  installArgs : Option String := none
  args : Option String := none
  skipSeleniumInstall : Option Bool := none
  deriving DecidableEq, Repr

/-- The `config` argument: `outputDir` and `watch` are its only fields this
code reads. -/
structure Config where
  outputDir : Option String := none
  watch : Option Bool := none
  deriving DecidableEq, Repr

/-- The mutable instance state of `SeleniumStandaloneLauncher`. `process` is
`none` while the field is still `undefined` (it is only ever assigned in
`onPrepare`). -/
structure LauncherState where
  capabilities : Capabilities
  logPath : Option String
  args : Option String
  installArgs : Option String
  skipSeleniumInstall : Bool
  watchMode : Bool
  process : Option ProcVal
  deriving DecidableEq, Repr

/-- `options.logPath || config.outputDir`: JavaScript `||` falls through on
any falsy value, in particular the empty string. -/
def strOrElse (a b : Option String) : Option String :=
  match a with
  | some s => if s = "" then b else some s
  | none => b

/-- The constructor (lines 43–49). `options.args || {}` and
`options.installArgs || {}` keep `none` as the representation of the default
empty object; `Boolean(options.skipSeleniumInstall)` is `getD false`. -/
def mkLauncher (options : SSOptions) (capabilities : Capabilities) (config : Config) :
    LauncherState :=
  { capabilities := capabilities
    logPath := strOrElse options.logPath config.outputDir
    args := options.args
    installArgs := options.installArgs
    skipSeleniumInstall := options.skipSeleniumInstall.getD false
    watchMode := false
    process := none }

/-- Lines 54–56: `await promisify(SeleniumStandalone.install.bind(this.installArgs))`.
`bind` and `promisify` each return a function without calling `install`, and
awaiting that function value resolves immediately, so this step's effect
trace is whatever `awaitValue` yields on the promisified bound function. -/
def installStepEffects (st : LauncherState) : List Effect :=
  if !st.skipSeleniumInstall then
    (awaitValue (promisify (jsBind "SeleniumStandalone.install" st.installArgs))).2
  else []

/-- Modelled from the spec: `getFilePath` lives in
`src/packages/wdio-selenium-standalone-service/src/utils.ts`, which is not
among the sources; per the spec the log file is at
`<logPath>/wdio-selenium-standalone.log`. -/
def getFilePath (logPath fileName : String) : String :=
  logPath ++ "/" ++ fileName

/-- `_redirectLogStream` (lines 91–100): ensure the log file exists, open a
truncating write stream, and pipe `this.process.stdout?`/`stderr?` into it —
the optional chaining makes the pipe a no-op when the stored value has no
such stream property (any non-handle value). -/
def redirectLogStream (st : LauncherState) : List Effect :=
  let logFile := getFilePath (st.logPath.getD "") "wdio-selenium-standalone.log"
  [Effect.ensureFile logFile, Effect.createWriteStream logFile] ++
    (match st.process with
     | some (ProcVal.procHandle hasOut hasErr) =>
        (if hasOut then [Effect.pipeStdout] else []) ++
          (if hasErr then [Effect.pipeStderr] else [])
     | _ => [])

/-- Lines 78–80: `this.process.on('SIGINT'|'exit'|'uncaughtException', this._stopProcess)`,
performed in order, stopping at the first raised exception. Registration is
on the instance field `this.process` (which shadows the Node global
`process` inside the class), never on the host process. -/
def registerStopHandlers (v : Option ProcVal) : List Effect × Option JsError :=
  match v with
  | none => ([], some (JsError.typeError "on"))
  | some pv =>
    let r1 := callOnMethod pv "SIGINT"
    match r1.2 with
    | some e => (r1.1, some e)
    | none =>
      let r2 := callOnMethod pv "exit"
      match r2.2 with
      | some e => (r1.1 ++ r2.1, some e)
      | none =>
        let r3 := callOnMethod pv "uncaughtException"
        (r1.1 ++ r2.1 ++ r3.1, r3.2)

/-- `onPrepare` (lines 51–82), as a state transformer with an effect trace
and an optional raised exception. Steps in source order:
1. `this.watchMode = Boolean(config.watch)`;
2. the install step (no-op unless it throws — it cannot, see
   `installStepEffects`);
3. merge `DEFAULT_CONNECTION` into every capability descriptor;
4. `this.process = promisify(SeleniumStandalone.start.bind(this.args))` —
   an assignment of the (uncalled) promisified function;
5. if `typeof this.logPath === 'string'`, redirect the log stream;
6. if in watch mode, register `this._stopProcess` on `this.process`. -/
def onPrepare (st0 : LauncherState) (config : Config) :
    LauncherState × List Effect × Option JsError :=
  let st1 := { st0 with watchMode := config.watch.getD false }
  let installEffs := installStepEffects st1
  let st2 := { st1 with capabilities := prepareCapabilities st1.capabilities }
  let st3 := { st2 with
    process := some (promisify (jsBind "SeleniumStandalone.start" st2.args)) }
  let redirectEffs := if st3.logPath.isSome then redirectLogStream st3 else []
  let reg := if st3.watchMode then registerStopHandlers st3.process else ([], none)
  (st3, installEffs ++ redirectEffs ++ reg.1, reg.2)

/-- `_stopProcess` (lines 102–107): if `this.process` is truthy, log and call
`this.process.kill()`. The method assigns no field, so the state is returned
unchanged. -/
def stopProcess (st : LauncherState) :
    LauncherState × List Effect × Option JsError :=
  match st.process with
  | none => (st, [], none)
  | some v =>
    let r := callKillMethod v
    (st, Effect.logInfo "shutting down all browsers" :: r.1, r.2)

/-- `n` successive invocations of `_stopProcess`, collecting all effects and
all raised errors (each trigger path invokes the handler independently, so an
exception in one invocation does not prevent later ones). -/
def stopProcessIter : LauncherState → Nat → LauncherState × List Effect × List JsError
  | st, 0 => (st, [], [])
  | st, n + 1 =>
    let r := stopProcess st
    let rest := stopProcessIter r.1 n
    (rest.1, r.2.1 ++ rest.2.1, r.2.2.toList ++ rest.2.2)

/-- `onComplete` (lines 84–89). -/
def onComplete (st : LauncherState) : LauncherState × List Effect × Option JsError :=
  if st.watchMode then (st, [], none) else stopProcess st

end Launcher

namespace Resolver

/-- A service-option object, e.g. `{opt: 1}`. -/
abbrev Options := List (String × Int)

/-- A property value (`.launcher` or `.default` of a service value): either a
function — which may throw a given error when constructed with `new` — or a
plain object. Both are truthy. -/
inductive PropVal where
  | funcVal (name : String) (ctorThrows : Option String)
  | objVal (name : String)
  deriving DecidableEq, Repr

/-- `typeof` tag of a (non-string) service value. -/
inductive STag where
  | object
  | function
  deriving DecidableEq, Repr

/-- A service value: a pre-built hook object, a service class, or a module
loaded by the plugin loader. Beyond its `typeof` tag it carries its
`launcher` and `default` properties (`none` = `undefined`) and, when it is
itself a function, whether constructing it throws. -/
structure SVal where
  tag : STag
  name : String
  launcher : Option PropVal := none
  defaultExport : Option PropVal := none
  ctorThrows : Option String := none
  deriving DecidableEq, Repr

/-- An entry value in the `services` configuration list: a string package
name, or a value (object or function per its tag). -/
inductive EntryVal where
  | str (s : String)
  | val (v : SVal)
  deriving DecidableEq, Repr

/-- One item of `config.services`: a bare entry or an `[entry, options]`
pair. -/
inductive SvcListItem where
  | bare (e : EntryVal)
  | pair (e : EntryVal) (opts : Options)
  deriving DecidableEq, Repr

/-- `sanitizeServiceArray` (lines 83–85): wrap a bare entry as
`[service, {}]`. -/
def sanitizeServiceArray : SvcListItem → EntryVal × Options
  | SvcListItem.bare e => (e, [])
  | SvcListItem.pair e o => (e, o)

/-- The tuple pushed by `initialiseServices`:
`[service, serviceConfig, serviceName?]`. -/
structure InitialisedService where
  service : SVal
  serviceConfig : Options
  serviceName : Option String
  deriving DecidableEq, Repr

/-- `initialiseServices` (lines 24–74): classify each sanitized entry by
`typeof`. An object entry is pushed as `[service, {}]` (the options are
dropped), a function entry as `[service, serviceConfig]`, and a string entry
is resolved through `initialisePlugin` — which may throw, aborting the whole
call — and pushed as `[service, serviceConfig, serviceName]`. -/
def initialiseServices (resolve : String → Except String SVal) :
    List (EntryVal × Options) → Except String (List InitialisedService)
  | [] => Except.ok []
  | (e, serviceConfig) :: rest =>
    match e with
    | EntryVal.val v =>
      let entry : InitialisedService :=
        if v.tag = STag.object then
          { service := v, serviceConfig := [], serviceName := none }
        else
          { service := v, serviceConfig := serviceConfig, serviceName := none }
      match initialiseServices resolve rest with
      | Except.error err => Except.error err
      | Except.ok rest' => Except.ok (entry :: rest')
    | EntryVal.str name =>
      match resolve name with
      | Except.error err => Except.error err
      | Except.ok m =>
        match initialiseServices resolve rest with
        | Except.error err => Except.error err
        | Except.ok rest' =>
          Except.ok
            ({ service := m, serviceConfig := serviceConfig, serviceName := some name } :: rest')

/-- The wdio config as consumed by the resolver: the `services` list plus an
opaque token standing for the rest of the object (passed to constructors). -/
structure ResolverConfig where
  services : List SvcListItem
  token : Nat := 0
  deriving DecidableEq, Repr

/-- A constructor reference: `service.launcher || service` or
`service.default || service`. -/
inductive CtorRef where
  | prop (p : PropVal)
  | self (v : SVal)
  deriving DecidableEq, Repr

/-- `service.launcher || service`: the property when present (property
values in the model are truthy), the service itself when `undefined`. -/
def launcherOf (service : SVal) : CtorRef :=
  match service.launcher with
  | some p => CtorRef.prop p
  | none => CtorRef.self service

/-- `service.default || service`. -/
def defaultOrSelf (service : SVal) : CtorRef :=
  match service.defaultExport with
  | some p => CtorRef.prop p
  | none => CtorRef.self service

/-- `typeof ref === 'function'`. -/
def isFunctionRef : CtorRef → Bool
  | CtorRef.prop (PropVal.funcVal _ _) => true
  | CtorRef.prop (PropVal.objVal _) => false
  | CtorRef.self v => v.tag = STag.function

/-- The record of one `new Ctor(serviceConfig, caps, config)` call. -/
structure ServiceInstance where
  ctorName : String
  opts : Options
  capsArg : Nat
  configToken : Nat
  deriving DecidableEq, Repr

/-- `new ref(serviceConfig, caps, config)`: throws when the (user-supplied)
constructor throws, or when `ref` is not a function at all. -/
def instantiate (ref : CtorRef) (opts : Options) (caps : Nat) (config : ResolverConfig) :
    Except String ServiceInstance :=
  match ref with
  | CtorRef.prop (PropVal.funcVal n none) =>
    Except.ok { ctorName := n, opts := opts, capsArg := caps, configToken := config.token }
  | CtorRef.prop (PropVal.funcVal _ (some e)) => Except.error e
  | CtorRef.prop (PropVal.objVal _) => Except.error "TypeError: not a constructor"
  | CtorRef.self v =>
    match v.ctorThrows with
    | some e => Except.error e
    | none =>
      Except.ok { ctorName := v.name, opts := opts, capsArg := caps, configToken := config.token }

/-- An element of `launcherServices`: a custom object/function service pushed
as-is, or an instantiated launcher. -/
inductive LauncherService where
  | objService (v : SVal)
  | inst (i : ServiceInstance)
  deriving DecidableEq, Repr

/-- `typeof service.default === 'function'`. -/
def hasFunctionDefault (v : SVal) : Bool :=
  match v.defaultExport with
  | some (PropVal.funcVal _ _) => true
  | _ => false

/-- Does the ignore condition of lines 121–125 hold:
`serviceName && typeof service.default !== 'function' && typeof service !== 'function'`? -/
def ignoreCond (is : InitialisedService) : Bool :=
  is.serviceName.isSome && !hasFunctionDefault is.service &&
    !(is.service.tag = STag.function)

/-- Lines 110–116: `const Launcher = (service as ...).launcher || service`
and, when `typeof Launcher === 'function'`,
`launcherServices.push(new Launcher(serviceConfig, caps, config))` — the
constructor call may throw, aborting with the arrays as mutation left
them. -/
def launcherPush (caps : Nat) (config : ResolverConfig)
    (acc : List String × List LauncherService) (is : InitialisedService) :
    (List String × List LauncherService) × Option String :=
  if isFunctionRef (launcherOf is.service) then
    match instantiate (launcherOf is.service) is.serviceConfig caps config with
    | Except.error e => (acc, some e)
    | Except.ok i => ((acc.1, acc.2 ++ [LauncherService.inst i]), none)
  else (acc, none)

/-- Lines 118–127: when the ignore condition holds,
`ignoredWorkerServices.push(serviceName)`. -/
def launcherIgnore (acc : List String × List LauncherService) (is : InitialisedService) :
    List String × List LauncherService :=
  if ignoreCond is then
    match is.serviceName with
    | some nm => (acc.1 ++ [nm], acc.2)
    | none => acc
  else acc

/-- One iteration of the `initialiseLauncherService` loop body (lines
101–128), threading the two mutable arrays. A custom object with no source
name is pushed as-is (`continue`); otherwise `service.launcher || service`
is instantiated when callable — a throw here aborts the iteration — and then
the ignore condition may record the service name. -/
def launcherIter (caps : Nat) (config : ResolverConfig)
    (acc : List String × List LauncherService) (is : InitialisedService) :
    (List String × List LauncherService) × Option String :=
  if is.service.tag = STag.object ∧ is.serviceName = none then
    ((acc.1, acc.2 ++ [LauncherService.objService is.service]), none)
  else
    match launcherPush caps config acc is with
    | (acc', none) => (launcherIgnore acc' is, none)
    | (acc', some e) => (acc', some e)

/-- The whole `for` loop of `initialiseLauncherService`: iterate until done
or until an exception aborts the loop, keeping the accumulated arrays. -/
def launcherLoop (caps : Nat) (config : ResolverConfig) :
    List InitialisedService → List String × List LauncherService →
      (List String × List LauncherService) × Option String
  | [], acc => (acc, none)
  | is :: rest, acc =>
    match launcherIter caps config acc is with
    | (acc', none) => launcherLoop caps config rest acc'
    | (acc', some e) => (acc', some e)

/-- The result object of `initialiseLauncherService`. -/
structure LauncherResult where
  ignoredWorkerServices : List String
  launcherServices : List LauncherService
  deriving DecidableEq, Repr

/-- `initialiseLauncherService` (lines 95–137). The second component of the
result is the list of `log.error` messages: the `try/catch` swallows any
exception, logs it, and returns whatever the two arrays hold — empty when
`initialiseServices` itself threw (the loop never started), the partial
accumulation when the loop threw mid-way. -/
def initialiseLauncherService (resolve : String → Except String SVal)
    (config : ResolverConfig) (caps : Nat) : LauncherResult × List String :=
  match initialiseServices resolve (config.services.map sanitizeServiceArray) with
  | Except.error e => ({ ignoredWorkerServices := [], launcherServices := [] }, [e])
  | Except.ok services =>
    match launcherLoop caps config services ([], []) with
    | (acc, none) => ({ ignoredWorkerServices := acc.1, launcherServices := acc.2 }, [])
    | (acc, some e) => ({ ignoredWorkerServices := acc.1, launcherServices := acc.2 }, [e])

/-- An element of the worker-service list. -/
inductive WorkerService where
  | objService (v : SVal)
  | inst (i : ServiceInstance)
  deriving DecidableEq, Repr

/-- `ignoredWorkerServices.includes(serviceName)`: strict equality, so only
string entries can match — an object or function is never `===` a string. -/
def includesEntry (ignored : List String) : EntryVal → Bool
  | EntryVal.str s => ignored.contains s
  | EntryVal.val _ => false

/-- The `services.map(...)` callback of lines 154–165: a custom object
passes through, otherwise `service.default || service` is instantiated when
it is a function, and any other shape yields `undefined` (here `none`),
later dropped by `.filter(Boolean)`. -/
def workerMapStep (caps : Nat) (config : ResolverConfig) (is : InitialisedService) :
    Except String (Option WorkerService) :=
  if is.service.tag = STag.object ∧ is.serviceName = none then
    Except.ok (some (WorkerService.objService is.service))
  else
    if isFunctionRef (defaultOrSelf is.service) then
      match instantiate (defaultOrSelf is.service) is.serviceConfig caps config with
      | Except.error e => Except.error e
      | Except.ok i => Except.ok (some (WorkerService.inst i))
    else Except.ok none

/-- `services.map(cb)` with a callback that may throw: the first exception
propagates out of `map`, discarding all partial results. -/
def workerMap (caps : Nat) (config : ResolverConfig) :
    List InitialisedService → Except String (List (Option WorkerService))
  | [] => Except.ok []
  | is :: rest =>
    match workerMapStep caps config is with
    | Except.error e => Except.error e
    | Except.ok w =>
      match workerMap caps config rest with
      | Except.error e => Except.error e
      | Except.ok rest' => Except.ok (w :: rest')

/-- `initialiseWorkerService` (lines 147–174). The sanitized list is first
filtered against `ignoredWorkerServices`; the `try/catch` turns any
exception from resolution or instantiation into a logged error and an empty
result; `.filter(Boolean)` drops the `undefined` entries. The second
component is again the `log.error` list. -/
def initialiseWorkerService (resolve : String → Except String SVal)
    (config : ResolverConfig) (caps : Nat) (ignoredWorkerServices : List String) :
    List WorkerService × List String :=
  let workerServices := (config.services.map sanitizeServiceArray).filter
    (fun p => !includesEntry ignoredWorkerServices p.1)
  match initialiseServices resolve workerServices with
  | Except.error e => ([], [e])
  | Except.ok services =>
    match workerMap caps config services with
    | Except.error e => ([], [e])
    | Except.ok l => (l.filterMap id, [])

end Resolver

namespace Launcher

/-- Is the stored value an actual child-process handle? -/
def isProcHandle : Option ProcVal → Bool
  | some (ProcVal.procHandle _ _) => true
  | _ => false

/-- Is this effect a registration on the host Node.js `process` global? -/
def isHostProcessOn : Effect → Bool
  | Effect.hostProcessOn _ => true
  | _ => false

end Launcher

namespace Launcher

theorem capGet_capSet_self (m : Capability) (k : String) (v : CapValue) :
    capGet (capSet m k v) k = some v := by
  induction m with
  | nil => simp [capSet, capGet]
  | cons p rest ih =>
    by_cases h : p.1 = k
    · simp [capSet, capGet, h]
    · simp [capSet, capGet, h, ih]

theorem capGet_capSet_other (m : Capability) (k : String) (v : CapValue) (k' : String)
    (h : k' ≠ k) : capGet (capSet m k v) k' = capGet m k' := by
  induction m with
  | nil => simp [capSet, capGet, Ne.symm h]
  | cons p rest ih =>
    by_cases hp : p.1 = k
    · subst hp
      simp [capSet, capGet, Ne.symm h, h]
    · by_cases hp' : p.1 = k'
      · simp [capSet, capGet, hp, hp', h]
      · simp [capSet, capGet, hp, hp', ih]

theorem capGet_objAssign_of_none (src : Capability) (t : Capability) (k : String)
    (h : capGet src k = none) : capGet (objAssign t src) k = capGet t k := by
  induction src generalizing t with
  | nil => simp [objAssign]
  | cons p rest ih =>
    have hk : p.1 ≠ k := by
      intro hk
      simp [capGet, hk] at h
    have hrest : capGet rest k = none := by
      simpa [capGet, hk] using h
    show capGet (objAssign (capSet t p.1 p.2) rest) k = capGet t k
    rw [ih _ hrest, capGet_capSet_other _ _ _ _ (Ne.symm hk)]

theorem capGet_eq_none_of_not_mem (m : Capability) (k : String)
    (h : k ∉ m.map Prod.fst) : capGet m k = none := by
  induction m with
  | nil => simp [capGet]
  | cons p rest ih =>
    simp only [List.map_cons, List.mem_cons] at h
    push_neg at h
    simp [capGet, Ne.symm h.1, ih h.2]

theorem capGet_objAssign_of_some (src : Capability) (t : Capability) (k : String)
    (v : CapValue) (hnd : (src.map Prod.fst).Nodup) (h : capGet src k = some v) :
    capGet (objAssign t src) k = some v := by
  induction src generalizing t with
  | nil => simp [capGet] at h
  | cons p rest ih =>
    simp only [List.map_cons, List.nodup_cons] at hnd
    by_cases hk : p.1 = k
    · subst hk
      have hv : v = p.2 := by
        simp [capGet] at h
        exact h.symm
      have hnone : capGet rest p.1 = none :=
        capGet_eq_none_of_not_mem rest p.1 hnd.1
      show capGet (objAssign (capSet t p.1 p.2) rest) p.1 = some v
      rw [capGet_objAssign_of_none rest _ _ hnone, capGet_capSet_self, hv]
    · have hrest : capGet rest k = some v := by
        simpa [capGet, hk] using h
      show capGet (objAssign (capSet t p.1 p.2) rest) k = some v
      exact ih _ hnd.2 hrest

theorem mergeCapability_preserves (cap : Capability) (hnd : (cap.map Prod.fst).Nodup)
    (k : String) (v : CapValue) (h : capGet cap k = some v) :
    capGet (mergeCapability cap) k = some v :=
  capGet_objAssign_of_some cap (objAssign cap DEFAULT_CONNECTION) k v hnd h

theorem mergeCapability_default (cap : Capability) (k : String) (v : CapValue)
    (h : capGet cap k = none) (hd : capGet DEFAULT_CONNECTION k = some v) :
    capGet (mergeCapability cap) k = some v := by
  unfold mergeCapability
  rw [capGet_objAssign_of_none cap _ _ h]
  exact capGet_objAssign_of_some DEFAULT_CONNECTION _ k v (by decide) hd

theorem stopProcess_none (st : LauncherState) (h : st.process = none) :
    stopProcess st = (st, [], none) := by
  simp [stopProcess, h]

theorem stopProcess_handle (st : LauncherState) (o e : Bool)
    (h : st.process = some (ProcVal.procHandle o e)) :
    stopProcess st =
      (st, [Effect.logInfo "shutting down all browsers", Effect.killSignal], none) := by
  simp [stopProcess, h, callKillMethod]

theorem stopProcessIter_none (st : LauncherState) (n : Nat) (h : st.process = none) :
    stopProcessIter st n = (st, [], []) := by
  induction n with
  | zero => simp [stopProcessIter]
  | succ n ih => simp [stopProcessIter, stopProcess_none st h, ih]

theorem stopProcessIter_handle (st : LauncherState) (o e : Bool) (n : Nat)
    (h : st.process = some (ProcVal.procHandle o e)) :
    (stopProcessIter st n).1 = st
    ∧ (stopProcessIter st n).2.1.count Effect.killSignal = n
    ∧ (stopProcessIter st n).2.2 = [] := by
  induction n with
  | zero => simp [stopProcessIter]
  | succ n ih =>
    simp [stopProcessIter, stopProcess_handle st o e h, List.count_append, List.count_cons,
      ih.1, ih.2.1, ih.2.2, beq_iff_eq]

/-- C3: after `onPrepare`, in both the array and the keyed multiremote form,
every capability descriptor has been merged with `DEFAULT_CONNECTION`:
fields already defined keep their value, and each of
`protocol`/`hostname`/`port`/`path` that was absent now carries the default
(`http`/`localhost`/`4444`/`/wd/hub`, per `DEFAULT_CONNECTION`). -/
theorem C3_default_connection_merge :
    (∀ (st : LauncherState) (cfg : Config),
        ((onPrepare st cfg).1).capabilities = prepareCapabilities st.capabilities)
    ∧ (∀ caps : List Capability,
        prepareCapabilities (Capabilities.list caps)
          = Capabilities.list (caps.map mergeCapability))
    ∧ (∀ m : List (String × Capability),
        prepareCapabilities (Capabilities.keyed m)
          = Capabilities.keyed (m.map fun p => (p.1, mergeCapability p.2)))
    ∧ (∀ cap : Capability, (cap.map Prod.fst).Nodup →
        (∀ (k : String) (v : CapValue), capGet cap k = some v →
            capGet (mergeCapability cap) k = some v)
        ∧ (∀ (k : String) (v : CapValue), capGet cap k = none →
            capGet DEFAULT_CONNECTION k = some v →
            capGet (mergeCapability cap) k = some v)) := by
  refine ⟨fun st cfg => rfl, fun caps => rfl, fun m => rfl, fun cap hnd => ⟨?_, ?_⟩⟩
  · exact fun k v h => mergeCapability_preserves cap hnd k v h
  · exact fun k v h hd => mergeCapability_default cap k v h hd

/-- Witness for C3 at a concrete descriptor `{port: 4723}`: the existing
`port` survives the merge and the absent `protocol` receives the default. -/
theorem C3_default_connection_merge_witness :
    capGet (mergeCapability [("port", CapValue.num 4723)]) "port" = some (CapValue.num 4723)
    ∧ capGet (mergeCapability [("port", CapValue.num 4723)]) "protocol"
        = some (CapValue.str "http") :=
  ⟨(C3_default_connection_merge.2.2.2 [("port", CapValue.num 4723)] (by decide)).1
      "port" (CapValue.num 4723) (by decide),
   (C3_default_connection_merge.2.2.2 [("port", CapValue.num 4723)] (by decide)).2
      "protocol" (CapValue.str "http") (by decide) (by decide)⟩

/-- C1: contrary to the claim, `onPrepare` never invokes the external
`start` operation: line 71 stores `promisify(SeleniumStandalone.start.bind(this.args))`
— the uncalled promisified bound function — in `this.process`, so after
`onPrepare` the field holds a function value, not a started process handle.
Evaluated at a concrete configuration. -/
theorem C1_start_not_invoked :
    (onPrepare (mkLauncher {}
        (Capabilities.list [[("browserName", CapValue.str "chrome")]]) {}) {}).1.process
      = some (ProcVal.promisifiedFn (ProcVal.boundFn "SeleniumStandalone.start" none))
    ∧ isProcHandle (onPrepare (mkLauncher {}
        (Capabilities.list [[("browserName", CapValue.str "chrome")]]) {}) {}).1.process
      = false
    ∧ (onPrepare (mkLauncher {}
        (Capabilities.list [[("browserName", CapValue.str "chrome")]]) {}) {}).2.1.count
        Effect.startCall = 0 :=
  ⟨rfl, rfl, rfl⟩

/-- C2: contrary to the claim, with the install-skip flag unset `onPrepare`
never invokes the external `install` operation: line 55 awaits
`promisify(SeleniumStandalone.install.bind(this.installArgs))`, a function
value, which resolves immediately without calling `install` — so the install
step performs nothing and can never reject. Evaluated at a concrete
configuration with `skipSeleniumInstall` unset. -/
theorem C2_install_not_invoked :
    (mkLauncher {} (Capabilities.list [[]]) {}).skipSeleniumInstall = false
    ∧ installStepEffects (mkLauncher {} (Capabilities.list [[]]) {}) = []
    ∧ (onPrepare (mkLauncher {} (Capabilities.list [[]]) {}) {}).2.1.count
        Effect.installCall = 0
    ∧ (onPrepare (mkLauncher {} (Capabilities.list [[]]) {}) {}).2.2 = none :=
  ⟨rfl, rfl, rfl, rfl⟩

/-- C9: contrary to the claim, in watch mode `onPrepare` registers the stop
handler on the instance field `this.process` (lines 78–80), never on the
host process's event source — no host-process registration effect occurs;
and because the stored value is the promisified function (which has no `on`
method), the registration attempt actually raises a `TypeError`. -/
theorem C9_watch_registration_not_on_host :
    (onPrepare (mkLauncher {} (Capabilities.list []) {})
        { watch := some true }).1.watchMode = true
    ∧ ((onPrepare (mkLauncher {} (Capabilities.list []) {})
        { watch := some true }).2.1.filter isHostProcessOn) = []
    ∧ (onPrepare (mkLauncher {} (Capabilities.list []) {})
        { watch := some true }).2.1.count (Effect.childOn "SIGINT") = 0
    ∧ (onPrepare (mkLauncher {} (Capabilities.list []) {})
        { watch := some true }).2.2 = some (JsError.typeError "on") :=
  ⟨rfl, rfl, rfl, rfl⟩

/-- C7: contrary to the claim, `_stopProcess` is not error-free from every
trigger path. Before any `onPrepare` the unset field makes it a harmless
no-op (see `stopProcess_none`/`stopProcessIter_none`), but after any
completed `onPrepare` the field holds the promisified start function — no
process handle exists (`isProcHandle` is `false`) — yet `_stopProcess`
passes the truthiness guard, logs, and then raises a `TypeError` calling
`.kill()` on a function; the explicit completion path (`onComplete` outside
watch mode) reaches exactly this state in every normal run. Evaluated at a
concrete configuration. -/
theorem C7_stop_throws_after_prepare :
    isProcHandle ((onPrepare (mkLauncher {} (Capabilities.list [[]]) {}) {}).1).process
      = false
    ∧ (stopProcess ((onPrepare (mkLauncher {} (Capabilities.list [[]]) {}) {}).1)).2
      = ([Effect.logInfo "shutting down all browsers"], some (JsError.typeError "kill"))
    ∧ (onComplete ((onPrepare (mkLauncher {} (Capabilities.list [[]]) {}) {}).1)).2.2
      = some (JsError.typeError "kill") :=
  ⟨rfl, rfl, rfl⟩

/-- C8 counterexample: with a process handle present, two successive
`_stopProcess` invocations issue two kills, not exactly one — the method
never clears `this.process`, so re-entrant calls re-issue `kill`. -/
theorem C8_counterexample :
    (stopProcessIter
        { mkLauncher {} (Capabilities.list []) {} with
            process := some (ProcVal.procHandle true true) } 2).2.1.count
        Effect.killSignal = 2
    ∧ (stopProcessIter
        { mkLauncher {} (Capabilities.list []) {} with
            process := some (ProcVal.procHandle true true) } 2).2.1.count
        Effect.killSignal ≠ 1 :=
  ⟨rfl, by decide⟩

/-- C8 as amended: while a process handle exists, every `_stopProcess`
invocation issues one kill (so `n` invocations issue `n` kills), each
invocation is individually error-free, and the handle is left in place. -/
theorem C8_kill_per_invocation :
    ∀ (st : LauncherState) (o e : Bool) (n : Nat),
      st.process = some (ProcVal.procHandle o e) →
      (stopProcessIter st n).1 = st
      ∧ (stopProcessIter st n).2.1.count Effect.killSignal = n
      ∧ (stopProcessIter st n).2.2 = [] :=
  fun st o e n h => stopProcessIter_handle st o e n h

/-- Witness for the amended C8 at three invocations. -/
theorem C8_kill_per_invocation_witness :
    (stopProcessIter
        { mkLauncher {} (Capabilities.list []) {} with
            process := some (ProcVal.procHandle true true) } 3).1
      = { mkLauncher {} (Capabilities.list []) {} with
            process := some (ProcVal.procHandle true true) }
    ∧ (stopProcessIter
        { mkLauncher {} (Capabilities.list []) {} with
            process := some (ProcVal.procHandle true true) } 3).2.1.count
        Effect.killSignal = 3
    ∧ (stopProcessIter
        { mkLauncher {} (Capabilities.list []) {} with
            process := some (ProcVal.procHandle true true) } 3).2.2 = [] :=
  C8_kill_per_invocation _ true true 3 rfl

end Launcher

namespace Resolver

theorem launcherPush_fst (caps : Nat) (config : ResolverConfig)
    (acc : List String × List LauncherService) (is : InitialisedService) :
    (launcherPush caps config acc is).1.1 = acc.1 := by
  unfold launcherPush
  by_cases hf : isFunctionRef (launcherOf is.service)
  · rcases hinst : instantiate (launcherOf is.service) is.serviceConfig caps config with e | i <;>
      simp [hf, hinst]
  · simp [hf]

theorem launcherIgnore_mem (acc : List String × List LauncherService)
    (is : InitialisedService) (n : String) (h : n ∈ acc.1) :
    n ∈ (launcherIgnore acc is).1 := by
  unfold launcherIgnore
  by_cases hc : ignoreCond is = true
  · rcases hn : is.serviceName with _ | nm <;> simp [hc, hn, h]
  · simp [hc, h]

theorem launcherIgnore_sub (acc : List String × List LauncherService)
    (is : InitialisedService) (n : String) (h : n ∈ (launcherIgnore acc is).1) :
    n ∈ acc.1 ∨ is.serviceName = some n := by
  unfold launcherIgnore at h
  by_cases hc : ignoreCond is = true
  · rcases hn : is.serviceName with _ | nm
    · simp [hc, hn] at h
      exact Or.inl h
    · simp [hc, hn] at h
      rcases h with h | h
      · exact Or.inl h
      · exact Or.inr (congrArg some h.symm)
  · simp [hc] at h
    exact Or.inl h

theorem launcherIgnore_pushes (acc : List String × List LauncherService)
    (is : InitialisedService) (nm : String) (hc : ignoreCond is = true)
    (hn : is.serviceName = some nm) : nm ∈ (launcherIgnore acc is).1 := by
  unfold launcherIgnore
  simp [hc, hn]

theorem launcherIter_fst_mono (caps : Nat) (config : ResolverConfig)
    (acc : List String × List LauncherService) (is : InitialisedService)
    (n : String) (h : n ∈ acc.1) : n ∈ (launcherIter caps config acc is).1.1 := by
  unfold launcherIter
  by_cases h1 : is.service.tag = STag.object ∧ is.serviceName = none
  · simp [h1, h]
  · rw [if_neg h1]
    rcases hp : launcherPush caps config acc is with ⟨acc', err⟩
    have hfst : acc'.1 = acc.1 := by
      have hh := launcherPush_fst caps config acc is
      rw [hp] at hh
      exact hh
    rcases err with _ | e
    · exact launcherIgnore_mem acc' is n (hfst ▸ h)
    · exact hfst ▸ h

theorem launcherIter_fst_sub (caps : Nat) (config : ResolverConfig)
    (acc : List String × List LauncherService) (is : InitialisedService)
    (n : String) (h : n ∈ (launcherIter caps config acc is).1.1) :
    n ∈ acc.1 ∨ is.serviceName = some n := by
  unfold launcherIter at h
  by_cases h1 : is.service.tag = STag.object ∧ is.serviceName = none
  · rw [if_pos h1] at h
    exact Or.inl h
  · rw [if_neg h1] at h
    rcases hp : launcherPush caps config acc is with ⟨acc', err⟩
    have hfst : acc'.1 = acc.1 := by
      have hh := launcherPush_fst caps config acc is
      rw [hp] at hh
      exact hh
    rcases err with _ | e
    · simp [hp] at h
      rcases launcherIgnore_sub acc' is n h with h' | h'
      · exact Or.inl (hfst ▸ h')
      · exact Or.inr h'
    · simp [hp] at h
      exact Or.inl (hfst ▸ h)

theorem launcherIter_pushes (caps : Nat) (config : ResolverConfig)
    (acc : List String × List LauncherService) (is : InitialisedService) (nm : String)
    (hok : (launcherIter caps config acc is).2 = none)
    (hc : ignoreCond is = true) (hn : is.serviceName = some nm) :
    nm ∈ (launcherIter caps config acc is).1.1 := by
  have h1 : ¬(is.service.tag = STag.object ∧ is.serviceName = none) := by
    rintro ⟨-, h2⟩
    rw [h2] at hn
    cases hn
  unfold launcherIter at hok ⊢
  rw [if_neg h1] at hok ⊢
  rcases hp : launcherPush caps config acc is with ⟨acc', err⟩
  rcases err with _ | e
  · simp [hp]
    exact launcherIgnore_pushes acc' is nm hc hn
  · simp [hp] at hok

end Resolver

namespace Resolver

theorem launcherLoop_fst_mono (caps : Nat) (config : ResolverConfig)
    (l : List InitialisedService) :
    ∀ (acc : List String × List LauncherService) (n : String), n ∈ acc.1 →
      n ∈ (launcherLoop caps config l acc).1.1 := by
  induction l with
  | nil =>
    intro acc n h
    simpa [launcherLoop] using h
  | cons is rest ih =>
    intro acc n h
    have hm := launcherIter_fst_mono caps config acc is n h
    simp only [launcherLoop]
    rcases hi : launcherIter caps config acc is with ⟨acc', err⟩
    rw [hi] at hm
    rcases err with _ | e
    · exact ih acc' n hm
    · exact hm

theorem launcherLoop_fst_sub (caps : Nat) (config : ResolverConfig)
    (l : List InitialisedService) :
    ∀ (acc : List String × List LauncherService) (n : String),
      n ∈ (launcherLoop caps config l acc).1.1 →
      n ∈ acc.1 ∨ ∃ is ∈ l, is.serviceName = some n := by
  induction l with
  | nil =>
    intro acc n h
    exact Or.inl (by simpa [launcherLoop] using h)
  | cons is rest ih =>
    intro acc n h
    simp only [launcherLoop] at h
    rcases hi : launcherIter caps config acc is with ⟨acc', err⟩
    rw [hi] at h
    have hsub : n ∈ acc'.1 → n ∈ acc.1 ∨ ∃ i ∈ is :: rest, i.serviceName = some n := by
      intro h'
      rcases launcherIter_fst_sub caps config acc is n (by rw [hi]; exact h') with h2 | h2
      · exact Or.inl h2
      · exact Or.inr ⟨is, List.mem_cons_self is rest, h2⟩
    rcases err with _ | e
    · rcases ih acc' n h with h' | ⟨is', hmem, hname⟩
      · exact hsub h'
      · exact Or.inr ⟨is', List.mem_cons_of_mem is hmem, hname⟩
    · exact hsub h

theorem launcherLoop_complete (caps : Nat) (config : ResolverConfig)
    (l : List InitialisedService) :
    ∀ (acc : List String × List LauncherService),
      (launcherLoop caps config l acc).2 = none →
      ∀ is ∈ l, ignoreCond is = true → ∀ nm, is.serviceName = some nm →
        nm ∈ (launcherLoop caps config l acc).1.1 := by
  induction l with
  | nil =>
    intro acc _ is hmem
    cases hmem
  | cons is0 rest ih =>
    intro acc hok is hmem hc nm hn
    simp only [launcherLoop] at hok ⊢
    rcases hi : launcherIter caps config acc is0 with ⟨acc', err⟩
    rw [hi] at hok
    rcases err with _ | e
    · rcases List.mem_cons.mp hmem with rfl | hmem'
      · have hpush : nm ∈ acc'.1 := by
          have h2 := launcherIter_pushes caps config acc is nm (by rw [hi]) hc hn
          rw [hi] at h2
          exact h2
        exact launcherLoop_fst_mono caps config rest acc' nm hpush
      · exact ih acc' hok is hmem' hc nm hn
    · simp at hok

end Resolver

namespace Resolver

theorem initialiseServices_serviceName_mem (resolve : String → Except String SVal)
    (l : List (EntryVal × Options)) :
    ∀ ss, initialiseServices resolve l = Except.ok ss →
      ∀ is ∈ ss, ∀ nm, is.serviceName = some nm → ∃ p ∈ l, p.1 = EntryVal.str nm := by
  induction l with
  | nil =>
    intro ss h is hmem
    simp only [initialiseServices] at h
    cases h
    cases hmem
  | cons p rest ih =>
    intro ss h is hmem nm hn
    rcases p with ⟨e, cfg⟩
    cases e with
    | val v =>
      simp only [initialiseServices] at h
      rcases hr : initialiseServices resolve rest with er | ss'
      · rw [hr] at h
        cases h
      · rw [hr] at h
        cases h
        rcases List.mem_cons.mp hmem with rfl | hmem'
        · by_cases ht : v.tag = STag.object <;> simp [ht] at hn
        · rcases ih ss' hr is hmem' nm hn with ⟨q, hq, hq2⟩
          exact ⟨q, List.mem_cons_of_mem _ hq, hq2⟩
    | str name =>
      simp only [initialiseServices] at h
      rcases hm : resolve name with er | m
      · rw [hm] at h
        cases h
      · rw [hm] at h
        rcases hr : initialiseServices resolve rest with er | ss'
        · rw [hr] at h
          cases h
        · rw [hr] at h
          cases h
          rcases List.mem_cons.mp hmem with rfl | hmem'
          · refine ⟨(EntryVal.str name, cfg), List.mem_cons_self _ _, ?_⟩
            simp only [InitialisedService.serviceName] at hn
            cases hn
            rfl
          · rcases ih ss' hr is hmem' nm hn with ⟨q, hq, hq2⟩
            exact ⟨q, List.mem_cons_of_mem _ hq, hq2⟩

theorem initialiseServices_congr (resolve resolve' : String → Except String SVal)
    (l : List (EntryVal × Options))
    (h : ∀ p ∈ l, ∀ s, p.1 = EntryVal.str s → resolve s = resolve' s) :
    initialiseServices resolve l = initialiseServices resolve' l := by
  induction l with
  | nil => rfl
  | cons p rest ih =>
    have hrest : ∀ q ∈ rest, ∀ s, q.1 = EntryVal.str s → resolve s = resolve' s :=
      fun q hq => h q (List.mem_cons_of_mem _ hq)
    rcases p with ⟨e, cfg⟩
    cases e with
    | val v =>
      simp only [initialiseServices]
      rw [ih hrest]
    | str s =>
      have hs : resolve s = resolve' s := h (EntryVal.str s, cfg) (List.mem_cons_self _ _) s rfl
      simp only [initialiseServices]
      rw [hs, ih hrest]

theorem initialiseLauncherService_resolution_error (resolve : String → Except String SVal)
    (config : ResolverConfig) (caps : Nat) (e : String)
    (h : initialiseServices resolve (config.services.map sanitizeServiceArray)
        = Except.error e) :
    initialiseLauncherService resolve config caps
      = ({ ignoredWorkerServices := [], launcherServices := [] }, [e]) := by
  unfold initialiseLauncherService
  rw [h]

theorem initialiseWorkerService_resolution_error (resolve : String → Except String SVal)
    (config : ResolverConfig) (caps : Nat) (ign : List String) (e : String)
    (h : initialiseServices resolve ((config.services.map sanitizeServiceArray).filter
          (fun p => !includesEntry ign p.1)) = Except.error e) :
    initialiseWorkerService resolve config caps ign = ([], [e]) := by
  simp only [initialiseWorkerService, h]

theorem initialiseWorkerService_map_error (resolve : String → Except String SVal)
    (config : ResolverConfig) (caps : Nat) (ign : List String)
    (ss : List InitialisedService) (e : String)
    (hok : initialiseServices resolve ((config.services.map sanitizeServiceArray).filter
          (fun p => !includesEntry ign p.1)) = Except.ok ss)
    (hmap : workerMap caps config ss = Except.error e) :
    initialiseWorkerService resolve config caps ign = ([], [e]) := by
  simp only [initialiseWorkerService, hok, hmap]

theorem initialiseWorkerService_ok (resolve : String → Except String SVal)
    (config : ResolverConfig) (caps : Nat) (ign : List String)
    (ss : List InitialisedService) (l : List (Option WorkerService))
    (hok : initialiseServices resolve ((config.services.map sanitizeServiceArray).filter
          (fun p => !includesEntry ign p.1)) = Except.ok ss)
    (hmap : workerMap caps config ss = Except.ok l) :
    initialiseWorkerService resolve config caps ign = (l.filterMap id, []) := by
  simp only [initialiseWorkerService, hok, hmap]

theorem workerMapStep_none (caps : Nat) (config : ResolverConfig) (is : InitialisedService)
    (h1 : ¬(is.service.tag = STag.object ∧ is.serviceName = none))
    (h2 : isFunctionRef (defaultOrSelf is.service) = false) :
    workerMapStep caps config is = Except.ok none := by
  unfold workerMapStep
  rw [if_neg h1, if_neg (by simp [h2])]

theorem initialiseWorkerService_ignored_invariant (resolve resolve' : String → Except String SVal)
    (config : ResolverConfig) (caps : Nat) (ign : List String) (n : String)
    (hn : n ∈ ign) (h : ∀ s, s ≠ n → resolve s = resolve' s) :
    initialiseWorkerService resolve config caps ign
      = initialiseWorkerService resolve' config caps ign := by
  have hcongr : initialiseServices resolve
      ((config.services.map sanitizeServiceArray).filter (fun p => !includesEntry ign p.1))
      = initialiseServices resolve'
      ((config.services.map sanitizeServiceArray).filter (fun p => !includesEntry ign p.1)) := by
    apply initialiseServices_congr
    intro p hp s hs
    have hpred := (List.mem_filter.mp hp).2
    rw [hs] at hpred
    simp only [includesEntry] at hpred
    apply h
    intro heq
    rw [heq] at hpred
    simp at hpred
    exact hpred hn
  simp only [initialiseWorkerService, hcongr]

end Resolver

namespace Resolver

theorem initialiseLauncherService_ok_none (resolve : String → Except String SVal)
    (config : ResolverConfig) (caps : Nat) (ss : List InitialisedService)
    (acc : List String × List LauncherService)
    (hok : initialiseServices resolve (config.services.map sanitizeServiceArray)
        = Except.ok ss)
    (hl : launcherLoop caps config ss ([], []) = (acc, none)) :
    initialiseLauncherService resolve config caps
      = ({ ignoredWorkerServices := acc.1, launcherServices := acc.2 }, []) := by
  simp only [initialiseLauncherService, hok, hl]

theorem initialiseLauncherService_ok_some (resolve : String → Except String SVal)
    (config : ResolverConfig) (caps : Nat) (ss : List InitialisedService)
    (acc : List String × List LauncherService) (e : String)
    (hok : initialiseServices resolve (config.services.map sanitizeServiceArray)
        = Except.ok ss)
    (hl : launcherLoop caps config ss ([], []) = (acc, some e)) :
    initialiseLauncherService resolve config caps
      = ({ ignoredWorkerServices := acc.1, launcherServices := acc.2 }, [e]) := by
  simp only [initialiseLauncherService, hok, hl]

/-- C4 counterexample: an exception raised during *instantiation* (the
second service's constructor throws after the first was already
instantiated) is logged, yet `launcherServices` keeps the first instance —
it is not empty as the claim states. -/
theorem C4_counterexample :
    (initialiseLauncherService (fun _ => Except.error "unused")
        { services :=
            [SvcListItem.pair (EntryVal.val ⟨STag.function, "GoodService", none, none, none⟩) [],
             SvcListItem.pair
               (EntryVal.val ⟨STag.function, "BadService", none, none, some "ctor boom"⟩) []] } 0)
      = ({ ignoredWorkerServices := [],
           launcherServices :=
             [LauncherService.inst ⟨"GoodService", [], 0, 0⟩] }, ["ctor boom"])
    ∧ (initialiseLauncherService (fun _ => Except.error "unused")
        { services :=
            [SvcListItem.pair (EntryVal.val ⟨STag.function, "GoodService", none, none, none⟩) [],
             SvcListItem.pair
               (EntryVal.val ⟨STag.function, "BadService", none, none, some "ctor boom"⟩) []] }
        0).1.launcherServices ≠ [] :=
  ⟨rfl, by decide⟩

/-- C4 (amended): `initialiseLauncherService` never throws — it logs the
error and returns the arrays accumulated before the exception. An exception
raised while resolving the service list (the plugin loader throwing for a
named entry) occurs before anything is accumulated, because the whole list
is resolved before the instantiation loop starts, so in that case — in
particular for `[["@scope/my-service", {opt: 1}]]` whose resolution throws —
the result is `{ ignoredWorkerServices: [], launcherServices: [] }`. -/
theorem C4_resolution_error_yields_empty :
    (∀ (resolve : String → Except String SVal) (config : ResolverConfig) (caps : Nat)
        (e : String),
        initialiseServices resolve (config.services.map sanitizeServiceArray)
          = Except.error e →
        initialiseLauncherService resolve config caps
          = ({ ignoredWorkerServices := [], launcherServices := [] }, [e]))
    ∧ initialiseLauncherService (fun _ => Except.error "resolution failed")
        { services := [SvcListItem.pair (EntryVal.str "@scope/my-service") [("opt", 1)]] } 0
      = ({ ignoredWorkerServices := [], launcherServices := [] }, ["resolution failed"]) :=
  ⟨initialiseLauncherService_resolution_error, rfl⟩

/-- Witness for C4: a concrete resolver whose plugin loader throws. -/
theorem C4_resolution_error_yields_empty_witness :
    initialiseLauncherService (fun _ => Except.error "boom")
        { services := [SvcListItem.bare (EntryVal.str "some-service")] } 0
      = ({ ignoredWorkerServices := [], launcherServices := [] }, ["boom"]) :=
  C4_resolution_error_yields_empty.1 (fun _ => Except.error "boom")
    { services := [SvcListItem.bare (EntryVal.str "some-service")] } 0 "boom" rfl

/-- C5 counterexample: the appending is not unconditional. A named entry
resolving to a module that meets the claim's shape condition (no callable
default export, not itself callable) but whose `launcher` property is a
constructor that throws is never recorded: `new Launcher(...)` throws at
lines 114–116, aborting the loop before the ignore check of lines 118–127
runs, and the catch returns the arrays with `ignoredWorkerServices` still
empty. -/
theorem C5_counterexample :
    (initialiseLauncherService
        (fun _ => Except.ok ⟨STag.object, "mod",
            some (PropVal.funcVal "ThrowingLauncher" (some "launcher boom")), none, none⟩)
        { services := [SvcListItem.pair (EntryVal.str "svc-with-throwing-launcher") []] } 0)
      = ({ ignoredWorkerServices := [], launcherServices := [] }, ["launcher boom"])
    ∧ hasFunctionDefault (⟨STag.object, "mod",
        some (PropVal.funcVal "ThrowingLauncher" (some "launcher boom")), none, none⟩ : SVal)
      = false
    ∧ (⟨STag.object, "mod",
        some (PropVal.funcVal "ThrowingLauncher" (some "launcher boom")), none, none⟩
        : SVal).tag ≠ STag.function :=
  ⟨rfl, rfl, by decide⟩

/-- C5 as amended: (launcher side) in a run where resolution succeeded and
the instantiation loop completed without an exception — the exception-free
condition the counterexample forces — every named entry whose resolved
module has no callable default export and is not itself callable has its
identifier appended to `ignoredWorkerServices`; (worker side, as claimed) a
subsequent `initialiseWorkerService` call whose ignore list contains a name
filters that entry out before resolution, so the plugin loader is never
invoked for it — the result does not depend on what the loader would return
for that name. -/
theorem C5_ignored_service_skipped_in_worker :
    (∀ (resolve : String → Except String SVal) (config : ResolverConfig) (caps : Nat)
        (ss : List InitialisedService) (is : InitialisedService) (nm : String),
        initialiseServices resolve (config.services.map sanitizeServiceArray)
          = Except.ok ss →
        (launcherLoop caps config ss ([], [])).2 = none →
        is ∈ ss → is.serviceName = some nm →
        hasFunctionDefault is.service = false → is.service.tag ≠ STag.function →
        nm ∈ (initialiseLauncherService resolve config caps).1.ignoredWorkerServices)
    ∧ (∀ (resolve resolve' : String → Except String SVal) (config : ResolverConfig)
        (caps : Nat) (ign : List String) (n : String),
        n ∈ ign → (∀ s, s ≠ n → resolve s = resolve' s) →
        initialiseWorkerService resolve config caps ign
          = initialiseWorkerService resolve' config caps ign) := by
  constructor
  · intro resolve config caps ss is nm hok hloop hmem hn hd ht
    have hc : ignoreCond is = true := by
      simp [ignoreCond, hn, hd, ht]
    have hfin := launcherLoop_complete caps config ss ([], []) hloop is hmem hc nm hn
    rcases hl : launcherLoop caps config ss ([], []) with ⟨acc, err⟩
    rw [hl] at hfin
    rcases err with _ | e
    · rw [initialiseLauncherService_ok_none resolve config caps ss acc hok hl]
      exact hfin
    · rw [hl] at hloop
      cases hloop
  · exact initialiseWorkerService_ignored_invariant

/-- Witness for C5: a named service resolving to a plain object module is
recorded as ignorable by the launcher pass, and the worker pass is
insensitive to the loader's behaviour on an ignored name. -/
theorem C5_ignored_service_skipped_in_worker_witness :
    "plain-service" ∈ (initialiseLauncherService
        (fun s => if s = "plain-service"
          then Except.ok ⟨STag.object, "plainModule", none, none, none⟩
          else Except.error "unknown")
        { services := [SvcListItem.pair (EntryVal.str "plain-service") []] }
        0).1.ignoredWorkerServices
    ∧ initialiseWorkerService
        (fun s => if s = "plain-service" then Except.error "a"
          else Except.ok ⟨STag.object, "m", none, none, none⟩)
        { services := [SvcListItem.bare (EntryVal.str "other")] } 0 ["plain-service"]
      = initialiseWorkerService
        (fun s => if s = "plain-service" then Except.error "b"
          else Except.ok ⟨STag.object, "m", none, none, none⟩)
        { services := [SvcListItem.bare (EntryVal.str "other")] } 0 ["plain-service"] :=
  ⟨C5_ignored_service_skipped_in_worker.1
      (fun s => if s = "plain-service"
        then Except.ok ⟨STag.object, "plainModule", none, none, none⟩
        else Except.error "unknown")
      { services := [SvcListItem.pair (EntryVal.str "plain-service") []] } 0
      [⟨⟨STag.object, "plainModule", none, none, none⟩, [], some "plain-service"⟩]
      ⟨⟨STag.object, "plainModule", none, none, none⟩, [], some "plain-service"⟩
      "plain-service" rfl rfl (List.mem_singleton.mpr rfl) rfl rfl (by decide),
   C5_ignored_service_skipped_in_worker.2
      (fun s => if s = "plain-service" then Except.error "a"
        else Except.ok ⟨STag.object, "m", none, none, none⟩)
      (fun s => if s = "plain-service" then Except.error "b"
        else Except.ok ⟨STag.object, "m", none, none, none⟩)
      { services := [SvcListItem.bare (EntryVal.str "other")] } 0 ["plain-service"]
      "plain-service" (List.mem_singleton.mpr rfl) (fun s hs => by simp [hs])⟩

/-- C6: `initialiseWorkerService` never throws — an exception during
resolution or during the instantiation map is logged and the result is the
empty sequence; and independently, an entry that is not a pre-built object
and whose `default || self` is not callable maps to `undefined` without
error, hence is dropped by the final `.filter(Boolean)` from a successful
run's result. -/
theorem C6_worker_errors_swallowed :
    (∀ (resolve : String → Except String SVal) (config : ResolverConfig) (caps : Nat)
        (ign : List String) (e : String),
        initialiseServices resolve ((config.services.map sanitizeServiceArray).filter
            (fun p => !includesEntry ign p.1)) = Except.error e →
        initialiseWorkerService resolve config caps ign = ([], [e]))
    ∧ (∀ (resolve : String → Except String SVal) (config : ResolverConfig) (caps : Nat)
        (ign : List String) (ss : List InitialisedService) (e : String),
        initialiseServices resolve ((config.services.map sanitizeServiceArray).filter
            (fun p => !includesEntry ign p.1)) = Except.ok ss →
        workerMap caps config ss = Except.error e →
        initialiseWorkerService resolve config caps ign = ([], [e]))
    ∧ (∀ (caps : Nat) (config : ResolverConfig) (is : InitialisedService),
        ¬(is.service.tag = STag.object ∧ is.serviceName = none) →
        isFunctionRef (defaultOrSelf is.service) = false →
        workerMapStep caps config is = Except.ok none)
    ∧ (∀ (resolve : String → Except String SVal) (config : ResolverConfig) (caps : Nat)
        (ign : List String) (ss : List InitialisedService) (l : List (Option WorkerService)),
        initialiseServices resolve ((config.services.map sanitizeServiceArray).filter
            (fun p => !includesEntry ign p.1)) = Except.ok ss →
        workerMap caps config ss = Except.ok l →
        initialiseWorkerService resolve config caps ign = (l.filterMap id, [])) :=
  ⟨initialiseWorkerService_resolution_error, initialiseWorkerService_map_error,
   workerMapStep_none, initialiseWorkerService_ok⟩

/-- Witness for C6: a failing loader yields `([], logged)`; a throwing
worker constructor yields `([], logged)`; a named plain-object module maps
to `undefined` without error. -/
theorem C6_worker_errors_swallowed_witness :
    initialiseWorkerService (fun _ => Except.error "boom")
        { services := [SvcListItem.bare (EntryVal.str "x")] } 0 [] = ([], ["boom"])
    ∧ initialiseWorkerService (fun _ => Except.error "unused")
        { services :=
            [SvcListItem.pair (EntryVal.val ⟨STag.function, "Bad", none, none, some "boom"⟩) []] }
        0 [] = ([], ["boom"])
    ∧ workerMapStep 0 { services := [] }
        ⟨⟨STag.object, "plainModule", none, none, none⟩, [], some "x"⟩ = Except.ok none :=
  ⟨C6_worker_errors_swallowed.1 (fun _ => Except.error "boom")
      { services := [SvcListItem.bare (EntryVal.str "x")] } 0 [] "boom" rfl,
   C6_worker_errors_swallowed.2.1 (fun _ => Except.error "unused")
      { services :=
          [SvcListItem.pair (EntryVal.val ⟨STag.function, "Bad", none, none, some "boom"⟩) []] }
      0 [] [⟨⟨STag.function, "Bad", none, none, some "boom"⟩, [], none⟩] "boom" rfl rfl,
   C6_worker_errors_swallowed.2.2.1 0 { services := [] }
      ⟨⟨STag.object, "plainModule", none, none, none⟩, [], some "x"⟩ (by simp) rfl⟩

/-- C10: every element of `ignoredWorkerServices` came from the
`serviceName` slot, which `initialiseServices` populates only for string
entries — so every ignored name appeared as a named entry in the input
service list; constructor and pre-built-object entries are never
recorded. -/
theorem C10_ignored_names_are_named_entries :
    ∀ (resolve : String → Except String SVal) (config : ResolverConfig) (caps : Nat)
      (n : String),
      n ∈ (initialiseLauncherService resolve config caps).1.ignoredWorkerServices →
      ∃ item ∈ config.services, (sanitizeServiceArray item).1 = EntryVal.str n := by
  intro resolve config caps n hmem
  rcases hr : initialiseServices resolve (config.services.map sanitizeServiceArray)
    with e | ss
  · rw [initialiseLauncherService_resolution_error resolve config caps e hr] at hmem
    simp at hmem
  · have hacc : n ∈ (launcherLoop caps config ss ([], [])).1.1 := by
      rcases hl : launcherLoop caps config ss ([], []) with ⟨acc, err⟩
      rcases err with _ | e
      · rw [initialiseLauncherService_ok_none resolve config caps ss acc hr hl] at hmem
        simpa using hmem
      · rw [initialiseLauncherService_ok_some resolve config caps ss acc e hr hl] at hmem
        simpa using hmem
    rcases launcherLoop_fst_sub caps config ss ([], []) n hacc with h | ⟨is, hin, hname⟩
    · simp at h
    · rcases initialiseServices_serviceName_mem resolve _ ss hr is hin n hname
        with ⟨p, hp, hp1⟩
      rcases List.mem_map.mp hp with ⟨item, hitem, hitem2⟩
      exact ⟨item, hitem, by rw [hitem2, hp1]⟩

/-- Witness for C10 at a concrete run that records one ignored name. -/
theorem C10_ignored_names_are_named_entries_witness :
    ∃ item ∈ [SvcListItem.pair (EntryVal.str "npm-service") ([] : Options)],
      (sanitizeServiceArray item).1 = EntryVal.str "npm-service" :=
  C10_ignored_names_are_named_entries
    (fun _ => Except.ok ⟨STag.object, "mod", none, none, none⟩)
    { services := [SvcListItem.pair (EntryVal.str "npm-service") []] } 0 "npm-service"
    (by decide)

end Resolver
